import Mathlib

/-!
  Verification of the coub-backup download orchestration layer
  (source file: coub-dl.go).

  The Go source is shallowly embedded: every fallible Go call returns an
  Option Err (none = nil error), the filesystem and the network fetch
  primitive are oracles supplied as explicit arguments, and the driver
  loop of ReadCoub is modelled as a pure function that also produces the
  ordered list of observable events (directory creation, metadata-file
  creation, clip submission to the download pool, and wait-group barriers).
-/

/-- Go errors are modelled by their message strings; none = nil. -/
abbrev Err := String

/-- Error returned by the Go os package when a method is invoked on a nil
file handle, as happens in CreateCoubInfoFiles when os.Create fails and the
subsequent WriteString calls run on the nil file. -/
def errInvalid : Err := "invalid argument"

/-- Modelled from the spec: the Coub struct declaration is not under src/;
the tag list of a clip is an ordered sequence of tag records with a Title
field (spec section 3), accessed in the source as tag.Title. -/
structure Tag where
  title : String
deriving DecidableEq, Repr

/-- Modelled from the spec: one named rendition URL of the AssetManifest
(spec section 3, FileRenditions); the source accesses ....Med.URL etc. -/
structure QualityVersion where
  url : String
deriving DecidableEq, Repr

/-- Modelled from the spec: the HTML5 video renditions, accessed in the
source as coub.FileVersions.HTML5.Video.{Med,High,Higher}.URL. -/
structure HTML5Video where
  med : QualityVersion
  high : QualityVersion
  higher : QualityVersion
deriving DecidableEq, Repr

/-- Modelled from the spec: the HTML5 audio renditions, accessed in the
source as coub.FileVersions.HTML5.Audio.{High,Med}.URL. -/
structure HTML5Audio where
  high : QualityVersion
  med : QualityVersion
deriving DecidableEq, Repr

/-- Modelled from the spec: the HTML5 branch of the file renditions. -/
structure HTML5Renditions where
  video : HTML5Video
  audio : HTML5Audio
deriving DecidableEq, Repr

/-- Modelled from the spec: the share branch of the file renditions,
accessed in the source as coub.FileVersions.Share.Default. -/
structure ShareRendition where
  default : String
deriving DecidableEq, Repr

/-- Modelled from the spec: the fixed set of named file-rendition URLs
(spec section 3, FileRenditions). -/
structure FileVersions where
  html5 : HTML5Renditions
  share : ShareRendition
deriving DecidableEq, Repr

/-- Modelled from the spec: an image or first-frame rendition set: a URL
template with a version placeholder plus an ordered sequence of version
identifiers (spec section 3, ImageRenditionSet / FrameRenditionSet). -/
structure VersionSet where
  template : String
  versions : List String
deriving DecidableEq, Repr

/-- Modelled from the spec: the ClipRecord / Coub struct declaration is not
under src/; fields are taken from the accessor paths used in coub-dl.go and
from spec section 3.  createdAtStr holds the rendering CreatedAt.String()
and durationStr the rendering Sprintf of the duration with two decimals;
both renderings are produced by excluded external formatting code, so they
are carried as opaque strings. -/
structure Coub where
  title : String
  type : String
  createdAtStr : String
  durationStr : String
  viewsCount : Int
  recoubsCount : Int
  externalDownload : Bool
  tags : List Tag
  fileVersions : FileVersions
  imageVersions : VersionSet
  firstFrameVersions : VersionSet
deriving DecidableEq, Repr

/-- Code points with the Unicode White_Space property, the set trimmed by
Go strings.TrimSpace (via unicode.IsSpace). -/
def goSpaceCodes : List Nat :=
  [0x09, 0x0A, 0x0B, 0x0C, 0x0D, 0x20, 0x85, 0xA0, 0x1680,
   0x2000, 0x2001, 0x2002, 0x2003, 0x2004, 0x2005, 0x2006, 0x2007,
   0x2008, 0x2009, 0x200A, 0x2028, 0x2029, 0x202F, 0x205F, 0x3000]

/-- Whether Go unicode.IsSpace holds for a character. -/
def isGoSpace (c : Char) : Bool := goSpaceCodes.contains c.toNat

/-- Embedding of strings.TrimSpace: drop leading and trailing white space. -/
def trimSpace (s : String) : String :=
  String.mk (((s.data.dropWhile isGoSpace).reverse.dropWhile isGoSpace).reverse)

/-- The title-trimming mutation applied to the loop copy of the clip record
at line 33 of coub-dl.go: coub.Title = strings.TrimSpace(coub.Title). -/
def trimTitle (c : Coub) : Coub := { c with title := trimSpace c.title }

/-- Fuel-indexed worker for replaceAll; the fuel bounds the number of scan
steps so the recursion is structural. -/
def replaceAllAux (pat rep : List Char) : Nat → List Char → List Char
  | 0, s => s
  | _, [] => []
  | fuel + 1, c :: rest =>
    if pat.isPrefixOf (c :: rest) && !pat.isEmpty then
      rep ++ replaceAllAux pat rep fuel ((c :: rest).drop pat.length)
    else
      c :: replaceAllAux pat rep fuel rest

/-- Embedding of strings.Replace(s, pat, rep, -1): replace every
non-overlapping occurrence of pat in s by rep, scanning left to right.
The source only calls it with the non-empty pattern of the version
placeholder, so the empty-pattern insertion behaviour of Go is not
modelled. -/
def replaceAll (s pat rep : String) : String :=
  String.mk (replaceAllAux pat.data rep.data s.data.length s.data)

/-- Worker for FileNameFromURL: scan the characters, restarting the
accumulated segment after every slash, and return the final segment. -/
def fileNameAux : List Char → List Char → List Char
  | cur, [] => cur.reverse
  | cur, c :: rest => if c = '/' then fileNameAux [] rest else fileNameAux (c :: cur) rest

/-- Modelled from the spec: FileNameFromURL is not under src/; spec
section 4.2 says the local filename for a fetched URL is deterministically
derived from the URL's own path component (last path segment), so the name
is the substring after the last slash (the whole URL when it has none). -/
def FileNameFromURL (url : String) : String :=
  String.mk (fileNameAux [] url.data)

/-- The on-disk catalog file for a user as ReadCoub sees it: the outcome of
os.Open, the records the json decoder stored into tmpCoubs (possibly only
a prefix of the file when decoding failed midway), and the decoder error. -/
structure CatalogSource where
  openErr : Option Err
  decoded : List Coub
  decodeErr : Option Err
deriving Repr

/-- Filesystem oracle: the outcomes of the filesystem calls made during one
run.  CreateCoubDir is repository code outside src/, so only its interface
is modelled: a result directory and an error outcome per (trimmed) clip
record; rootdir is absorbed into createCoubDirRes. -/
structure Fs where
  createCoubDirRes : Coub → String
  createCoubDirErr : Coub → Option Err
  writeFile : String → Option Err
  createFile : String → Option Err
  writeString : String → String → Option Err
  closeFile : String → Option Err

/-- The repost filter of GetNonRecoubs (lines 81-85 of coub-dl.go): keep
exactly the records whose Type differs from the repost marker, preserving
order. -/
def filterNonRecoubs (l : List Coub) : List Coub :=
  l.filter (fun c => c.type != "Coub::Recoub")

/-- Embedding of GetNonRecoubs (lines 68-87): open the user's json file
(error fatal), decode it into tmpCoubs, then filter out reposts.  The
decoder error is assigned to err at line 79 but the function executes
return coubs, nil at line 86, so the decode error is discarded. -/
def GetNonRecoubs (src : CatalogSource) : List Coub × Option Err :=
  match src.openErr with
  | some e => ([], some e)
  | none => (filterNonRecoubs src.decoded, none)

/-- Embedding of the tag loop of CreateCoubInfoFiles (lines 130-139): each
non-final tag is written as title followed by a comma separator, the final
tag as title followed by a newline; the first write error is returned. -/
def writeTags (wr : String → Option Err) : List Tag → Option Err
  | [] => none
  | [t] => wr (t.title ++ "\n")
  | t :: rest =>
    match wr (t.title ++ ", ") with
    | some e => some e
    | none => writeTags wr rest

/-- Embedding of CreateCoubInfoFiles (lines 89-147).  The metadata.json
write error is returned; an os.Create failure for info.txt is only printed
(line 99), after which every WriteString runs on a nil file handle and
returns errInvalid; the errors of the Source line and of the bare Tags
label (lines 126 and 128) are overwritten without being checked. -/
def CreateCoubInfoFiles (fs : Fs) (dir : String) (coub : Coub) : Option Err :=
  match fs.writeFile (dir ++ "/metadata.json") with
  | some e => some e
  | none =>
    let infoPath := dir ++ "/info.txt"
    let createFailed := (fs.createFile infoPath).isSome
    let wr : String → Option Err := fun s =>
      if createFailed then some errInvalid else fs.writeString infoPath s
    match wr ("Title: " ++ coub.title ++ "\n") with
    | some e => some e
    | none =>
    match wr ("Created At: " ++ coub.createdAtStr ++ "\n") with
    | some e => some e
    | none =>
    match wr ("Duration: " ++ coub.durationStr ++ "\n") with
    | some e => some e
    | none =>
    match wr ("Views: " ++ toString coub.viewsCount ++ "\n") with
    | some e => some e
    | none =>
    match wr ("Recoubs: " ++ toString coub.recoubsCount ++ "\n") with
    | some e => some e
    | none =>
      let _ := wr ("Source: " ++ (if coub.externalDownload then "true" else "false") ++ "\n")
      let _ := wr "Tags: "
      match writeTags wr coub.tags with
      | some e => some e
      | none => if createFailed then some errInvalid else fs.closeFile infoPath

/-- The strings appended by the tag loop, in write order. -/
def tagWrites : List Tag → List String
  | [] => []
  | [t] => [t.title ++ "\n"]
  | t :: rest => (t.title ++ ", ") :: tagWrites rest

/-- Concatenation of a list of strings in order. -/
def strConcat : List String → String
  | [] => ""
  | s :: rest => s ++ strConcat rest

/-- The fixed labelled lines written to info.txt before the Tags label, in
source order (lines 102-126 of coub-dl.go). -/
def infoHeader (coub : Coub) : String :=
  "Title: " ++ coub.title ++ "\n" ++
  "Created At: " ++ coub.createdAtStr ++ "\n" ++
  "Duration: " ++ coub.durationStr ++ "\n" ++
  "Views: " ++ toString coub.viewsCount ++ "\n" ++
  "Recoubs: " ++ toString coub.recoubsCount ++ "\n" ++
  "Source: " ++ (if coub.externalDownload then "true" else "false") ++ "\n"

/-- Content of info.txt when every write succeeds: the concatenation of the
WriteString payloads of CreateCoubInfoFiles in source order. -/
def infoTxtContent (coub : Coub) : String :=
  infoHeader coub ++ "Tags: " ++ strConcat (tagWrites coub.tags)

/-- URL for one version identifier: the version substituted for every
occurrence of the placeholder in the template (lines 261 and 276). -/
def versionURL (tpl v : String) : String :=
  replaceAll tpl "%\x7bversion\x7d" v

/-- The (destination path, URL) pair fetched for one version identifier. -/
def versionFetchTarget (fp tpl : String) (v : String) : String × String :=
  (fp ++ "/" ++ FileNameFromURL (versionURL tpl v), versionURL tpl v)

/-- Shared loop body of DownloadImageVersions (lines 260-267) and
DownloadFirstFrameVersions (lines 275-282): fetch the substituted URL for
each version in manifest order and abort the group on the first fetch
error, returning it.  The result lists the fetches performed in order. -/
def downloadTemplateVersions (fetch : String → String → Option Err)
    (fp tpl : String) : List String → List (String × String) × Option Err
  | [] => ([], none)
  | v :: rest =>
    let pu := versionFetchTarget fp tpl v
    match fetch pu.1 pu.2 with
    | some e => ([pu], some e)
    | none =>
      let r := downloadTemplateVersions fetch fp tpl rest
      (pu :: r.1, r.2)

/-- Embedding of DownloadImageVersions (lines 256-269). -/
def DownloadImageVersions (fetch : String → String → Option Err)
    (fp : String) (coub : Coub) : List (String × String) × Option Err :=
  downloadTemplateVersions fetch fp coub.imageVersions.template
    coub.imageVersions.versions

/-- Embedding of DownloadFirstFrameVersions (lines 271-284). -/
def DownloadFirstFrameVersions (fetch : String → String → Option Err)
    (fp : String) (coub : Coub) : List (String × String) × Option Err :=
  downloadTemplateVersions fetch fp coub.firstFrameVersions.template
    coub.firstFrameVersions.versions

/-- Embedding of DownloadFileVersions (lines 186-254): fetch the fixed file
renditions in source order - medium, high, higher video, then high, medium
audio, then the default share file under its URL-derived name, then the
default share file again under the title-derived name.  Every fetch error
is only logged, so the whole sequence always runs and the function returns
nil. -/
def DownloadFileVersions (fetch : String → String → Option Err)
    (fp : String) (coub : Coub) : List (String × String) × Option Err :=
  let u1 := coub.fileVersions.html5.video.med.url
  let p1 := fp ++ "/" ++ FileNameFromURL u1
  let _ := fetch p1 u1
  let u2 := coub.fileVersions.html5.video.high.url
  let p2 := fp ++ "/" ++ FileNameFromURL u2
  let _ := fetch p2 u2
  let u3 := coub.fileVersions.html5.video.higher.url
  let p3 := fp ++ "/" ++ FileNameFromURL u3
  let _ := fetch p3 u3
  let u4 := coub.fileVersions.html5.audio.high.url
  let p4 := fp ++ "/" ++ FileNameFromURL u4
  let _ := fetch p4 u4
  let u5 := coub.fileVersions.html5.audio.med.url
  let p5 := fp ++ "/" ++ FileNameFromURL u5
  let _ := fetch p5 u5
  let u6 := coub.fileVersions.share.default
  let p6 := fp ++ "/" ++ FileNameFromURL u6
  let _ := fetch p6 u6
  let u7 := coub.fileVersions.share.default
  let p7 := fp ++ "/" ++ coub.title ++ ".mp4"
  let _ := fetch p7 u7
  ([(p1, u1), (p2, u2), (p3, u3), (p4, u4), (p5, u5), (p6, u6), (p7, u7)], none)

/-- Embedding of DownloadCoubData (lines 149-184): the three asset-group
downloads run in their own goroutines and are joined; their per-group fetch
lists are recorded separately because no cross-group order exists.  Group
errors are only logged inside the goroutines and the function executes
return nil at line 183, so the returned error is always nil. -/
def DownloadCoubData (fetch : String → String → Option Err)
    (rootdir : String) (coub : Coub) :
    (List (String × String) × List (String × String) × List (String × String)) × Option Err :=
  (((DownloadFirstFrameVersions fetch rootdir coub).1,
    (DownloadImageVersions fetch rootdir coub).1,
    (DownloadFileVersions fetch rootdir coub).1), none)

/-- Observable events of the ReadCoub driver loop, in program order: a clip
directory created, the metadata files of a clip written, a clip handed to
the download pool (submitEv records the zero-based loop index, the output
directory, and the record value passed - coubs at coubID from line 51), and
a wait-group barrier (wg.Wait at lines 60 and 63). -/
inductive Event where
  | createDirEv (outdir : String) (coub : Coub)
  | infoEv (outdir : String) (coub : Coub)
  | submitEv (i : Nat) (outdir : String) (coub : Coub)
  | barrierEv
deriving DecidableEq, Repr

/-- The clip record an event carries, if any. -/
def eventCoub : Event → Option Coub
  | .createDirEv _ c => some c
  | .infoEv _ c => some c
  | .submitEv _ _ c => some c
  | .barrierEv => none

/-- The clip records handed to the download pool, in submission order. -/
def submittedCoubs (evs : List Event) : List Coub :=
  evs.filterMap (fun e =>
    match e with
    | .submitEv _ _ c => some c
    | _ => none)

/-- Whether the event immediately after the submission with index i is a
barrier, i.e. whether the driver blocked on the pool right after that
clip was handed off. -/
def followsSubmit (i : Nat) : List Event → Bool
  | [] => false
  | Event.submitEv j _ _ :: rest =>
    if j == i then
      match rest with
      | Event.barrierEv :: _ => true
      | _ => false
    else followsSubmit i rest
  | _ :: rest => followsSubmit i rest

/-- Embedding of the body of the ReadCoub loop (lines 32-62), indexed by
the zero-based loop position.  The loop copy of the record is trimmed
(line 33) and used for directory and metadata creation; a CreateCoubDir or
CreateCoubInfoFiles error aborts the whole loop immediately.  The download
goroutine receives coubs at index coubID (line 51), which is the original
untrimmed slice element; after each submission the driver waits on the
pool when the index is divisible by 5 (lines 59-61). -/
def ReadCoubLoop (fs : Fs) : Nat → List Coub → List Event × Option Err
  | _, [] => ([], none)
  | i, coub :: rest =>
    let c := trimTitle coub
    match fs.createCoubDirErr c with
    | some e => ([], some e)
    | none =>
      let outdir := fs.createCoubDirRes c
      match CreateCoubInfoFiles fs outdir c with
      | some e => ([Event.createDirEv outdir c], some e)
      | none =>
        let r := ReadCoubLoop fs (i + 1) rest
        (Event.createDirEv outdir c :: Event.infoEv outdir c ::
           Event.submitEv i outdir coub ::
           ((if i % 5 == 0 then [Event.barrierEv] else []) ++ r.1), r.2)

/-- Embedding of ReadCoub (lines 20-66): load and filter the catalog (an
open error is fatal), run the per-clip loop, and on success wait on the
pool one final time (line 63) before returning nil. -/
def ReadCoub (fs : Fs) (src : CatalogSource) : List Event × Option Err :=
  match GetNonRecoubs src with
  | (_, some e) => ([], some e)
  | (coubs, none) =>
    let r := ReadCoubLoop fs 0 coubs
    match r.2 with
    | some e => (r.1, some e)
    | none => (r.1 ++ [Event.barrierEv], none)

/-- The per-clip event block produced when directory and metadata creation
both succeed, used to state closed forms of the loop trace. -/
def clipTrace (fs : Fs) (i : Nat) (coub : Coub) : List Event :=
  let c := trimTitle coub
  let outdir := fs.createCoubDirRes c
  Event.createDirEv outdir c :: Event.infoEv outdir c ::
    Event.submitEv i outdir coub ::
    (if i % 5 == 0 then [Event.barrierEv] else [])

/-- Closed form of the loop trace when every preparation step succeeds. -/
def loopTrace (fs : Fs) : Nat → List Coub → List Event
  | _, [] => []
  | i, coub :: rest => clipTrace fs i coub ++ loopTrace fs (i + 1) rest

/-- Directory and metadata preparation succeeds for every clip of the list
(each clip is prepared on its trimmed copy, as in the loop body). -/
abbrev prepOkFor (fs : Fs) (cs : List Coub) : Prop :=
  ∀ c ∈ cs, fs.createCoubDirErr (trimTitle c) = none ∧
    CreateCoubInfoFiles fs (fs.createCoubDirRes (trimTitle c)) (trimTitle c) = none

/-- A concrete clip record used by the closed evaluation theorems. -/
def mkCoub (t : String) : Coub :=
  { title := t
    type := "Coub::Simple"
    createdAtStr := "2020-01-01 00:00:00 +0000 UTC"
    durationStr := "10.00"
    viewsCount := 0
    recoubsCount := 0
    externalDownload := false
    tags := []
    fileVersions :=
      { html5 :=
          { video :=
              { med := { url := "http://v/m.mp4" }
                high := { url := "http://v/h.mp4" }
                higher := { url := "http://v/hr.mp4" } }
            audio :=
              { high := { url := "http://a/h.mp3" }
                med := { url := "http://a/m.mp3" } } }
        share := { default := "http://s/d.mp4" } }
    imageVersions := { template := "http://i/%\x7bversion\x7d/p.jpg", versions := [] }
    firstFrameVersions := { template := "http://f/%\x7bversion\x7d/p.jpg", versions := [] } }

/-- Filesystem oracle on which every call succeeds; the directory for a
clip is root/ followed by the clip title. -/
def fsHappy : Fs :=
  { createCoubDirRes := fun c => "root/" ++ c.title
    createCoubDirErr := fun _ => none
    writeFile := fun _ => none
    createFile := fun _ => none
    writeString := fun _ _ => none
    closeFile := fun _ => none }

/-- Like fsHappy except that creating root/a/info.txt fails. -/
def fsInfoFail : Fs :=
  { fsHappy with
    createFile := fun p => if p = "root/a/info.txt" then some "permission denied" else none }

/-- Like fsHappy except that CreateCoubDir fails for the clip titled b. -/
def fsDirFail : Fs :=
  { fsHappy with
    createCoubDirErr := fun c => if c.title = "b" then some "mkdir failed" else none }

/-- A fetch oracle on which every download succeeds. -/
def fetchNone : String → String → Option Err := fun _ _ => none

/-- Catalog whose file opens but whose content is malformed json: the
decoder stores nothing and reports an error. -/
def srcMalformed : CatalogSource :=
  { openErr := none, decoded := [], decodeErr := some "invalid character at offset 0" }

/-- Catalog whose file opens and decodes one record before the decoder
fails midway through the json array. -/
def srcHalfDecoded : CatalogSource :=
  { openErr := none, decoded := [mkCoub "a"], decodeErr := some "unexpected EOF" }

/-- Well-formed catalog with a single clip titled a. -/
def srcOneA : CatalogSource :=
  { openErr := none, decoded := [mkCoub "a"], decodeErr := none }

/-- Well-formed catalog with three clips titled a, b, c. -/
def srcABC : CatalogSource :=
  { openErr := none, decoded := [mkCoub "a", mkCoub "b", mkCoub "c"], decodeErr := none }

/-- Well-formed catalog with six clips. -/
def srcSix : CatalogSource :=
  { openErr := none
    decoded := [mkCoub "a", mkCoub "b", mkCoub "c", mkCoub "d", mkCoub "e", mkCoub "f"]
    decodeErr := none }

/-- Well-formed catalog with a single clip whose title carries surrounding
white space. -/
def srcSpacedTitle : CatalogSource :=
  { openErr := none, decoded := [mkCoub " x "], decodeErr := none }

/-- A repost record, filtered out by GetNonRecoubs. -/
def mkRecoub : Coub := { mkCoub "r" with type := "Coub::Recoub" }

/-- Catalog containing a repost between ordinary clips. -/
def srcWithRecoub : CatalogSource :=
  { openErr := none
    decoded := [mkCoub "a", mkRecoub, mkCoub "b", mkCoub "c"]
    decodeErr := none }

/-- Clip with the two tags of the spec example. -/
def coubTagged : Coub := { mkCoub "Cat" with tags := [{ title := "funny" }, { title := "cat" }] }

/-- Clip with the image and frame manifests of the spec example. -/
def coubTemplated : Coub :=
  { mkCoub "t" with
    imageVersions :=
      { template := "https://img.example/%\x7bversion\x7d/x.jpg", versions := ["000", "100"] }
    firstFrameVersions :=
      { template := "https://frame.example/%\x7bversion\x7d/y.jpg", versions := ["ff0", "ff1"] } }

/-- Fetch oracle that fails exactly on the second image URL and the second
frame URL of coubTemplated. -/
def fetchFailSecond : String → String → Option Err := fun _ url =>
  if url = "https://img.example/100/x.jpg" then some "http 404"
  else if url = "https://frame.example/ff1/y.jpg" then some "http 500"
  else none

theorem strData_append (s t : String) : (s ++ t).data = s.data ++ t.data := rfl

theorem strAppend_empty (s : String) : s ++ "" = s := by
  cases s with
  | mk d =>
    show String.mk (d ++ []) = String.mk d
    rw [List.append_nil]

theorem strAppend_assoc (s t u : String) : s ++ t ++ u = s ++ (t ++ u) := by
  cases s with
  | mk a =>
    cases t with
    | mk b =>
      cases u with
      | mk c =>
        show String.mk (a ++ b ++ c) = String.mk (a ++ (b ++ c))
        rw [List.append_assoc]

theorem lastNeOfParts {ch : Char} (l₁ l₂ : List Char)
    (h₁ : l₁.getLast? ≠ some ch) (h₂ : l₂.getLast? ≠ some ch) :
    (l₁ ++ l₂).getLast? ≠ some ch := by
  cases l₂ with
  | nil => simpa using h₁
  | cons b m =>
    rw [List.getLast?_append_of_ne_nil _ (by simp)]
    exact h₂

theorem tagWrites_trailing (ts : List Tag) (hne : ts ≠ [])
    (hn : ∀ t ∈ ts, t.title.data.getLast? ≠ some '\n') :
    ∃ s : String, strConcat (tagWrites ts) = s ++ "\n" ∧ s.data.getLast? ≠ some '\n' := by
  induction ts with
  | nil => exact absurd rfl hne
  | cons t rest ih =>
    cases rest with
    | nil =>
      refine ⟨t.title, ?_, hn t (by simp)⟩
      show strConcat [t.title ++ "\n"] = t.title ++ "\n"
      simp [strConcat, strAppend_empty]
    | cons t2 rest2 =>
      obtain ⟨s, hs, hlast⟩ :=
        ih (by simp) (fun t' ht' => hn t' (List.mem_cons_of_mem _ ht'))
      refine ⟨(t.title ++ ", ") ++ s, ?_, ?_⟩
      · show strConcat ((t.title ++ ", ") :: tagWrites (t2 :: rest2)) = _
        rw [strConcat, hs, ← strAppend_assoc]
      · rw [strData_append, strData_append]
        rw [List.append_assoc]
        exact lastNeOfParts _ _ (hn t (by simp))
          (lastNeOfParts _ _ (by decide) hlast)

theorem dtv_allOk (fetch : String → String → Option Err) (fp tpl : String) :
    ∀ (vs : List String),
      (∀ v ∈ vs, fetch (versionFetchTarget fp tpl v).1 (versionFetchTarget fp tpl v).2 = none) →
      downloadTemplateVersions fetch fp tpl vs = (vs.map (versionFetchTarget fp tpl), none) := by
  intro vs
  induction vs with
  | nil => intro _; rfl
  | cons v rest ih =>
    intro h
    have hv := h v (by simp)
    have hr := ih (fun w hw => h w (by simp [hw]))
    simp [downloadTemplateVersions, hv, hr]

theorem dtv_failAt (fetch : String → String → Option Err) (fp tpl : String) :
    ∀ (vpre : List String) (v : String) (vrest : List String) (e : Err),
      (∀ w ∈ vpre, fetch (versionFetchTarget fp tpl w).1 (versionFetchTarget fp tpl w).2 = none) →
      fetch (versionFetchTarget fp tpl v).1 (versionFetchTarget fp tpl v).2 = some e →
      downloadTemplateVersions fetch fp tpl (vpre ++ v :: vrest) =
        ((vpre ++ [v]).map (versionFetchTarget fp tpl), some e) := by
  intro vpre
  induction vpre with
  | nil =>
    intro v vrest e _ hv
    simp [downloadTemplateVersions, hv]
  | cons w ws ih =>
    intro v vrest e hpre hv
    have hw := hpre w (by simp)
    have hr := ih v vrest e (fun x hx => hpre x (by simp [hx])) hv
    simp [downloadTemplateVersions, hw, hr]

theorem ReadCoubLoop_ok (fs : Fs) :
    ∀ (cs : List Coub) (i : Nat), prepOkFor fs cs →
      ReadCoubLoop fs i cs = (loopTrace fs i cs, none) := by
  intro cs
  induction cs with
  | nil => intro i _; rfl
  | cons c rest ih =>
    intro i hp
    obtain ⟨h1, h2⟩ := hp c (by simp)
    have hr := ih (i + 1) (fun c' hc' => hp c' (by simp [hc']))
    simp [ReadCoubLoop, loopTrace, clipTrace, h1, h2, hr]

theorem ReadCoub_ok (fs : Fs) (src : CatalogSource) (h1 : src.openErr = none)
    (hp : prepOkFor fs (filterNonRecoubs src.decoded)) :
    ReadCoub fs src =
      (loopTrace fs 0 (filterNonRecoubs src.decoded) ++ [Event.barrierEv], none) := by
  unfold ReadCoub GetNonRecoubs
  rw [h1]
  simp [ReadCoubLoop_ok fs _ 0 hp]

theorem ReadCoubLoop_prefixApp (fs : Fs) :
    ∀ (pre cs : List Coub) (i : Nat), prepOkFor fs pre →
      ReadCoubLoop fs i (pre ++ cs) =
        (loopTrace fs i pre ++ (ReadCoubLoop fs (i + pre.length) cs).1,
         (ReadCoubLoop fs (i + pre.length) cs).2) := by
  intro pre
  induction pre with
  | nil => intro cs i _; simp [loopTrace]
  | cons c ps ih =>
    intro cs i hp
    obtain ⟨h1, h2⟩ := hp c (by simp)
    have hr := ih cs (i + 1) (fun c' hc' => hp c' (by simp [hc']))
    have hlen : i + (c :: ps).length = i + 1 + ps.length := by simp; omega
    rw [hlen]
    simp [ReadCoubLoop, loopTrace, clipTrace, h1, h2, hr]

theorem submittedCoubs_append (a b : List Event) :
    submittedCoubs (a ++ b) = submittedCoubs a ++ submittedCoubs b := by
  simp [submittedCoubs]

theorem submittedCoubs_loopTrace (fs : Fs) :
    ∀ (cs : List Coub) (i : Nat), submittedCoubs (loopTrace fs i cs) = cs := by
  intro cs
  induction cs with
  | nil => intro i; rfl
  | cons c rest ih =>
    intro i
    rw [loopTrace, submittedCoubs_append, ih (i + 1)]
    by_cases h : i % 5 = 0 <;> simp [clipTrace, submittedCoubs, h]

theorem eventCoub_loopTrace (fs : Fs) :
    ∀ (cs : List Coub) (i : Nat) (e : Event), e ∈ loopTrace fs i cs →
      ∀ c, eventCoub e = some c → ∃ c₀ ∈ cs, c = c₀ ∨ c = trimTitle c₀ := by
  intro cs
  induction cs with
  | nil => intro i e he; simp [loopTrace] at he
  | cons c₁ rest ih =>
    intro i e he c hc
    rw [loopTrace, List.mem_append] at he
    rcases he with he | he
    · have : e = Event.createDirEv (fs.createCoubDirRes (trimTitle c₁)) (trimTitle c₁) ∨
          e = Event.infoEv (fs.createCoubDirRes (trimTitle c₁)) (trimTitle c₁) ∨
          e = Event.submitEv i (fs.createCoubDirRes (trimTitle c₁)) c₁ ∨
          e = Event.barrierEv := by
        by_cases h5 : i % 5 = 0 <;> simp [clipTrace, h5] at he <;> tauto
      rcases this with rfl | rfl | rfl | rfl <;> simp [eventCoub] at hc <;>
        exact ⟨c₁, by simp, by simp [hc]⟩
    · obtain ⟨c₀, hc₀, hor⟩ := ih (i + 1) e he c hc
      exact ⟨c₀, by simp [hc₀], hor⟩

theorem submitEv_loopTrace (fs : Fs) :
    ∀ (cs : List Coub) (i₀ j : Nat) (d : String) (c : Coub),
      Event.submitEv j d c ∈ loopTrace fs i₀ cs →
      c ∈ cs ∧ d = fs.createCoubDirRes (trimTitle c) ∧
        Event.createDirEv (fs.createCoubDirRes (trimTitle c)) (trimTitle c) ∈
          loopTrace fs i₀ cs := by
  intro cs
  induction cs with
  | nil => intro i₀ j d c h; simp [loopTrace] at h
  | cons c₁ rest ih =>
    intro i₀ j d c h
    rw [loopTrace, List.mem_append] at h
    rcases h with h | h
    · have : j = i₀ ∧ d = fs.createCoubDirRes (trimTitle c₁) ∧ c = c₁ := by
        by_cases h5 : i₀ % 5 = 0 <;> simp [clipTrace, h5] at h <;> tauto
      obtain ⟨-, rfl, rfl⟩ := this
      refine ⟨by simp, rfl, ?_⟩
      rw [loopTrace, List.mem_append]
      left
      by_cases h5 : i₀ % 5 = 0 <;> simp [clipTrace, h5]
    · obtain ⟨h1, h2, h3⟩ := ih (i₀ + 1) j d c h
      refine ⟨by simp [h1], h2, ?_⟩
      rw [loopTrace, List.mem_append]
      right
      exact h3

theorem followsSubmit_loopTrace (fs : Fs) :
    ∀ (cs : List Coub) (i₀ : Nat) (t : List Event) (i : Nat),
      i₀ ≤ i → i + 1 < i₀ + cs.length →
      followsSubmit i (loopTrace fs i₀ cs ++ t) = (i % 5 == 0) := by
  intro cs
  induction cs with
  | nil =>
    intro i₀ t i h1 h2
    exfalso
    simp only [List.length_nil] at h2
    omega
  | cons c rest ih =>
    intro i₀ t i h1 h2
    rcases Nat.eq_or_lt_of_le h1 with heq | hlt
    · subst heq
      by_cases h5 : i₀ % 5 = 0
      · simp [loopTrace, clipTrace, followsSubmit, h5]
      · cases rest with
        | nil =>
          exfalso
          simp only [List.length_cons, List.length_nil] at h2
          omega
        | cons c₂ rest₂ =>
          simp [loopTrace, clipTrace, followsSubmit, h5]
    · have hne : (i₀ == i) = false := beq_eq_false_iff_ne.mpr (Nat.ne_of_lt hlt)
      have h2' : i + 1 < (i₀ + 1) + rest.length := by
        simp only [List.length_cons] at h2
        omega
      by_cases h5 : i₀ % 5 = 0 <;>
        simp [loopTrace, clipTrace, followsSubmit, hne, h5,
          ih (i₀ + 1) t i (by omega) h2']

/-- Unfolding of ReadCoub when the catalog file opens. -/
theorem ReadCoub_openOk (fs : Fs) (src : CatalogSource) (h1 : src.openErr = none) :
    ReadCoub fs src =
      (match (ReadCoubLoop fs 0 (filterNonRecoubs src.decoded)).2 with
       | some e => ((ReadCoubLoop fs 0 (filterNonRecoubs src.decoded)).1, some e)
       | none => ((ReadCoubLoop fs 0 (filterNonRecoubs src.decoded)).1 ++ [Event.barrierEv], none)) := by
  unfold ReadCoub GetNonRecoubs
  rw [h1]


/-- C6: DownloadFileVersions attempts every fixed file rendition in exactly
the priority order medium video, high video, higher video, high audio,
medium audio, then the default share file twice (once under its URL-derived
filename, once renamed to the title with an mp4 suffix); the result is the
same for every fetch oracle, so an individual fetch failure never stops the
group, the remaining renditions are still fetched, and the group never
aborts early. -/
theorem c6_file_rendition_order (fetch : String → String → Option Err)
    (fp : String) (coub : Coub) :
    DownloadFileVersions fetch fp coub =
      ([(fp ++ "/" ++ FileNameFromURL coub.fileVersions.html5.video.med.url,
           coub.fileVersions.html5.video.med.url),
        (fp ++ "/" ++ FileNameFromURL coub.fileVersions.html5.video.high.url,
           coub.fileVersions.html5.video.high.url),
        (fp ++ "/" ++ FileNameFromURL coub.fileVersions.html5.video.higher.url,
           coub.fileVersions.html5.video.higher.url),
        (fp ++ "/" ++ FileNameFromURL coub.fileVersions.html5.audio.high.url,
           coub.fileVersions.html5.audio.high.url),
        (fp ++ "/" ++ FileNameFromURL coub.fileVersions.html5.audio.med.url,
           coub.fileVersions.html5.audio.med.url),
        (fp ++ "/" ++ FileNameFromURL coub.fileVersions.share.default,
           coub.fileVersions.share.default),
        (fp ++ "/" ++ coub.title ++ ".mp4",
           coub.fileVersions.share.default)], none) := rfl

/-- C5: DownloadCoubData returns success for every fetch oracle, and when
the catalog file opens and every clip preparation succeeds, ReadCoub
returns nil: download failures are never escalated to the driver. -/
theorem c5_download_errors_never_fatal (fetch : String → String → Option Err)
    (rootdir : String) (c : Coub) (fs : Fs) (src : CatalogSource)
    (h1 : src.openErr = none)
    (hp : prepOkFor fs (filterNonRecoubs src.decoded)) :
    (DownloadCoubData fetch rootdir c).2 = none ∧ (ReadCoub fs src).2 = none := by
  refine ⟨rfl, ?_⟩
  rw [ReadCoub_ok fs src h1 hp]

/-- Witness for C5 at a concrete catalog and an oracle on which every
download fails. -/
theorem c5_witness :
    (DownloadCoubData (fun _ _ => some "network unreachable") "root/a" (mkCoub "a")).2 = none ∧
    (ReadCoub fsHappy srcOneA).2 = none :=
  c5_download_errors_never_fatal (fun _ _ => some "network unreachable") "root/a" (mkCoub "a")
    fsHappy srcOneA rfl (by decide)

/-- C9: for both the image and the first-frame group, when every fetch
succeeds, the group performs exactly one fetch per version identifier of
the manifest sequence, in manifest order, each at the URL formed by
substituting the version into the placeholder of the template. -/
theorem c9_ordered_template_substitution (fetch : String → String → Option Err)
    (fp : String) (coub : Coub)
    (hi : ∀ v ∈ coub.imageVersions.versions,
      fetch (versionFetchTarget fp coub.imageVersions.template v).1
        (versionFetchTarget fp coub.imageVersions.template v).2 = none)
    (hf : ∀ v ∈ coub.firstFrameVersions.versions,
      fetch (versionFetchTarget fp coub.firstFrameVersions.template v).1
        (versionFetchTarget fp coub.firstFrameVersions.template v).2 = none) :
    DownloadImageVersions fetch fp coub =
      (coub.imageVersions.versions.map (versionFetchTarget fp coub.imageVersions.template),
       none) ∧
    DownloadFirstFrameVersions fetch fp coub =
      (coub.firstFrameVersions.versions.map (versionFetchTarget fp coub.firstFrameVersions.template),
       none) :=
  ⟨dtv_allOk fetch fp _ _ hi, dtv_allOk fetch fp _ _ hf⟩

/-- Witness for C9 at the concrete template and version sequence of the
spec example: the two substituted URLs are fetched in manifest order. -/
theorem c9_witness :
    DownloadImageVersions fetchNone "out" coubTemplated =
      ([("out/x.jpg", "https://img.example/000/x.jpg"),
        ("out/x.jpg", "https://img.example/100/x.jpg")], none) ∧
    DownloadFirstFrameVersions fetchNone "out" coubTemplated =
      ([("out/y.jpg", "https://frame.example/ff0/y.jpg"),
        ("out/y.jpg", "https://frame.example/ff1/y.jpg")], none) := by
  have h := c9_ordered_template_substitution fetchNone "out" coubTemplated
    (by decide) (by decide)
  exact ⟨by rw [h.1]; decide, by rw [h.2]; decide⟩

/-- C7: in the image group and in the first-frame group a fetch failure
aborts that group immediately: the group stops at the failing version,
fetches no remaining version, and returns the error; the three asset
groups of one clip are computed independently inside DownloadCoubData, so
the sibling groups are unaffected and the per-clip coordinator still
returns nil. -/
theorem c7_image_frame_group_abort (fetch : String → String → Option Err)
    (fp : String) (coub : Coub) :
    (∀ (vpre : List String) (v : String) (vrest : List String) (e : Err),
      coub.imageVersions.versions = vpre ++ v :: vrest →
      (∀ w ∈ vpre, fetch (versionFetchTarget fp coub.imageVersions.template w).1
          (versionFetchTarget fp coub.imageVersions.template w).2 = none) →
      fetch (versionFetchTarget fp coub.imageVersions.template v).1
          (versionFetchTarget fp coub.imageVersions.template v).2 = some e →
      DownloadImageVersions fetch fp coub =
        ((vpre ++ [v]).map (versionFetchTarget fp coub.imageVersions.template), some e)) ∧
    (∀ (vpre : List String) (v : String) (vrest : List String) (e : Err),
      coub.firstFrameVersions.versions = vpre ++ v :: vrest →
      (∀ w ∈ vpre, fetch (versionFetchTarget fp coub.firstFrameVersions.template w).1
          (versionFetchTarget fp coub.firstFrameVersions.template w).2 = none) →
      fetch (versionFetchTarget fp coub.firstFrameVersions.template v).1
          (versionFetchTarget fp coub.firstFrameVersions.template v).2 = some e →
      DownloadFirstFrameVersions fetch fp coub =
        ((vpre ++ [v]).map (versionFetchTarget fp coub.firstFrameVersions.template), some e)) ∧
    DownloadCoubData fetch fp coub =
      (((DownloadFirstFrameVersions fetch fp coub).1,
        (DownloadImageVersions fetch fp coub).1,
        (DownloadFileVersions fetch fp coub).1), none) := by
  refine ⟨?_, ?_, rfl⟩
  · intro vpre v vrest e hsplit hpre hv
    unfold DownloadImageVersions
    rw [hsplit]
    exact dtv_failAt fetch fp _ vpre v vrest e hpre hv
  · intro vpre v vrest e hsplit hpre hv
    unfold DownloadFirstFrameVersions
    rw [hsplit]
    exact dtv_failAt fetch fp _ vpre v vrest e hpre hv

/-- Witness for C7: with an oracle failing on the second image URL and the
second frame URL, each group stops right after its failing fetch and
returns that error, while DownloadCoubData still returns nil. -/
theorem c7_witness :
    DownloadImageVersions fetchFailSecond "out" coubTemplated =
      ([("out/x.jpg", "https://img.example/000/x.jpg"),
        ("out/x.jpg", "https://img.example/100/x.jpg")], some "http 404") ∧
    DownloadFirstFrameVersions fetchFailSecond "out" coubTemplated =
      ([("out/y.jpg", "https://frame.example/ff0/y.jpg"),
        ("out/y.jpg", "https://frame.example/ff1/y.jpg")], some "http 500") ∧
    (DownloadCoubData fetchFailSecond "out" coubTemplated).2 = none := by
  have h := c7_image_frame_group_abort fetchFailSecond "out" coubTemplated
  refine ⟨?_, ?_, by rw [h.2.2]⟩
  · rw [h.1 ["000"] "100" [] "http 404" (by decide) (by decide) (by decide)]
    decide
  · rw [h.2.1 ["ff0"] "ff1" [] "http 500" (by decide) (by decide) (by decide)]
    decide

/-- C8: when the catalog file opens, the clip list produced by
GetNonRecoubs is exactly the decoded records whose type discriminator is
not the repost marker, in source order; with every preparation succeeding,
the records handed to the download pool by ReadCoub are exactly that list
in the same order, and no event of the run carries a repost record. -/
theorem c8_repost_filtering (fs : Fs) (src : CatalogSource)
    (h1 : src.openErr = none)
    (hp : prepOkFor fs (filterNonRecoubs src.decoded)) :
    GetNonRecoubs src = (filterNonRecoubs src.decoded, none) ∧
    submittedCoubs (ReadCoub fs src).1 = filterNonRecoubs src.decoded ∧
    ∀ e ∈ (ReadCoub fs src).1, ∀ c, eventCoub e = some c →
      c.type ≠ "Coub::Recoub" := by
  refine ⟨by simp [GetNonRecoubs, h1], ?_, ?_⟩
  · rw [ReadCoub_ok fs src h1 hp]
    show submittedCoubs (loopTrace fs 0 (filterNonRecoubs src.decoded) ++ [Event.barrierEv]) = _
    rw [submittedCoubs_append, submittedCoubs_loopTrace]
    simp [submittedCoubs]
  · intro e he c hc
    rw [ReadCoub_ok fs src h1 hp] at he
    have he' : e ∈ loopTrace fs 0 (filterNonRecoubs src.decoded) := by
      rcases List.mem_append.mp he with h | h
      · exact h
      · simp at h
        subst h
        simp [eventCoub] at hc
    obtain ⟨c₀, hc₀, hor⟩ := eventCoub_loopTrace fs _ 0 e he' c hc
    have htype : c₀.type ≠ "Coub::Recoub" := by
      have := (List.mem_filter.mp hc₀).2
      simpa using this
    rcases hor with rfl | rfl
    · exact htype
    · exact htype

/-- Witness for C8 at a catalog containing a repost: the repost is dropped,
order is otherwise preserved, and the submitted records equal the filtered
list. -/
theorem c8_witness :
    GetNonRecoubs srcWithRecoub = (filterNonRecoubs srcWithRecoub.decoded, none) ∧
    submittedCoubs (ReadCoub fsHappy srcWithRecoub).1 =
      filterNonRecoubs srcWithRecoub.decoded :=
  ⟨(c8_repost_filtering fsHappy srcWithRecoub rfl (by decide)).1,
   (c8_repost_filtering fsHappy srcWithRecoub rfl (by decide)).2.1⟩

/-- C10: in the info.txt content, when the tag list is empty the file ends
with the literal Tags label and no trailing newline (the content is the
header followed by the bare label, whose final character is a space), and
when the tag list is non-empty (its titles being newline-free at the end,
as tag titles are) the content ends with exactly one newline: it is some
string not ending in a newline, followed by one newline. -/
theorem c10_tags_line_termination (coub : Coub)
    (hn : ∀ t ∈ coub.tags, t.title.data.getLast? ≠ some '\n') :
    match coub.tags with
    | [] =>
      infoTxtContent coub = infoHeader coub ++ "Tags: " ∧
      (infoTxtContent coub).data.getLast? = some ' '
    | _ :: _ =>
      ∃ s, infoTxtContent coub = s ++ "\n" ∧ s.data.getLast? ≠ some '\n' := by
  cases htags : coub.tags with
  | nil =>
    have hcontent : infoTxtContent coub = infoHeader coub ++ "Tags: " := by
      unfold infoTxtContent
      rw [htags]
      show infoHeader coub ++ "Tags: " ++ strConcat [] = infoHeader coub ++ "Tags: "
      rw [strConcat, strAppend_empty]
    refine ⟨hcontent, ?_⟩
    rw [hcontent, strData_append]
    rw [List.getLast?_append_of_ne_nil _ (by decide)]
    decide
  | cons t rest =>
    obtain ⟨s, hs, hlast⟩ :=
      tagWrites_trailing (t :: rest) (by simp)
        (fun t' ht' => hn t' (by rw [htags]; exact ht'))
    refine ⟨(infoHeader coub ++ "Tags: ") ++ s, ?_, ?_⟩
    · unfold infoTxtContent
      rw [htags, hs, ← strAppend_assoc]
    · rw [strData_append]
      apply lastNeOfParts
      · rw [strData_append]
        rw [List.getLast?_append_of_ne_nil _
          (show ("Tags: " : String).data ≠ [] by decide)]
        decide
      · exact hlast

/-- Witness for C10 at one clip without tags and one with the two tags of
the spec example. -/
theorem c10_witness :
    (infoTxtContent (mkCoub "a") = infoHeader (mkCoub "a") ++ "Tags: " ∧
      (infoTxtContent (mkCoub "a")).data.getLast? = some ' ') ∧
    (∃ s, infoTxtContent coubTagged = s ++ "\n" ∧ s.data.getLast? ≠ some '\n') :=
  ⟨c10_tags_line_termination (mkCoub "a") (by decide),
   c10_tags_line_termination coubTagged (by decide)⟩

/-- C1 (code bug): a catalog file that opens but fails to parse is not
fatal.  The decoder error is assigned to err at line 79 of coub-dl.go but
GetNonRecoubs executes return coubs, nil, so the error is discarded: the
run proceeds over whatever records the decoder stored before failing,
creates their directories, and reports completion with a nil error, where
the claim requires an immediate error return with no directory created. -/
theorem c1_parse_failure_not_fatal :
    GetNonRecoubs srcMalformed = ([], none) ∧
    ReadCoub fsHappy srcMalformed = ([Event.barrierEv], none) ∧
    srcMalformed.decodeErr = some "invalid character at offset 0" ∧
    Event.createDirEv "root/a" (trimTitle (mkCoub "a")) ∈
      (ReadCoub fsHappy srcHalfDecoded).1 ∧
    (ReadCoub fsHappy srcHalfDecoded).2 = none ∧
    srcHalfDecoded.decodeErr = some "unexpected EOF" :=
  ⟨rfl, by decide, rfl, by decide, by decide, rfl⟩

/-- C2 (counterexample): when creating info.txt fails with a permission
error, ReadCoub does abort, but the error it returns is the invalid
argument error of the first write to the nil file handle, not the creation
error itself, so the claim that the creation error is returned is false. -/
theorem c2_counterexample :
    ReadCoub fsInfoFail srcOneA =
      ([Event.createDirEv "root/a" (trimTitle (mkCoub "a"))], some errInvalid) ∧
    fsInfoFail.createFile "root/a/info.txt" = some "permission denied" ∧
    errInvalid ≠ "permission denied" :=
  ⟨by decide, by decide, by decide⟩

/-- C2 (amended): whenever directory creation or metadata-file creation
for a clip fails, ReadCoub aborts immediately with an error and processes
no further clip: a CreateCoubDir error or a CreateCoubInfoFiles error is
returned as is, and the trace stops at the failing clip (for a
metadata.json failure that returned error is the creation error itself;
for an info.txt creation failure CreateCoubInfoFiles yields the invalid
argument error of the first nil-handle write, as errInvalid). -/
theorem c2_prep_failure_aborts (fs : Fs) (src : CatalogSource)
    (pre : List Coub) (c : Coub) (rest : List Coub)
    (h1 : src.openErr = none)
    (hL : filterNonRecoubs src.decoded = pre ++ c :: rest)
    (hpre : prepOkFor fs pre) :
    (∀ e, fs.createCoubDirErr (trimTitle c) = some e →
      ReadCoub fs src = (loopTrace fs 0 pre, some e)) ∧
    (∀ e, fs.createCoubDirErr (trimTitle c) = none →
      CreateCoubInfoFiles fs (fs.createCoubDirRes (trimTitle c)) (trimTitle c) = some e →
      ReadCoub fs src =
        (loopTrace fs 0 pre ++
           [Event.createDirEv (fs.createCoubDirRes (trimTitle c)) (trimTitle c)],
         some e)) := by
  constructor
  · intro e he
    have hstep : ReadCoubLoop fs (0 + pre.length) (c :: rest) = ([], some e) := by
      simp [ReadCoubLoop, he]
    rw [ReadCoub_openOk fs src h1, hL,
      ReadCoubLoop_prefixApp fs pre (c :: rest) 0 hpre, hstep]
    simp
  · intro e hdir hinfo
    have hstep : ReadCoubLoop fs (0 + pre.length) (c :: rest) =
        ([Event.createDirEv (fs.createCoubDirRes (trimTitle c)) (trimTitle c)], some e) := by
      simp [ReadCoubLoop, hdir, hinfo]
    rw [ReadCoub_openOk fs src h1, hL,
      ReadCoubLoop_prefixApp fs pre (c :: rest) 0 hpre, hstep]

/-- Witness for the amended C2: with CreateCoubDir failing on the second
clip, the run stops after the first clip and returns the directory
creation error. -/
theorem c2_amended_witness :
    ReadCoub fsDirFail srcABC = (loopTrace fsDirFail 0 [mkCoub "a"], some "mkdir failed") :=
  (c2_prep_failure_aborts fsDirFail srcABC [mkCoub "a"] (mkCoub "b") [mkCoub "c"]
      rfl (by decide) (by decide)).1 "mkdir failed" (by decide)

/-- C3 (counterexample): on a six-clip catalog the driver does not block
after the fifth submission (zero-based index 4): the event after that
submission is not a barrier, while a barrier does immediately follow the
very first submission - so the claimed schedule of barriers after
submissions 5, 10, 15 is false. -/
theorem c3_counterexample :
    followsSubmit 4 (ReadCoub fsHappy srcSix).1 = false ∧
    followsSubmit 0 (ReadCoub fsHappy srcSix).1 = true ∧
    (filterNonRecoubs srcSix.decoded).length = 6 :=
  ⟨by decide, by decide, by decide⟩

/-- C3 (amended): the driver blocks on the pool exactly after the
submissions whose zero-based index is divisible by 5, i.e. after the 1st,
6th, 11th, ... submission (the wait at line 60 runs when the loop index
satisfies i mod 5 = 0), not after the 5th, 10th, 15th; between two such
barriers at most five clips are submitted, which is what bounds the
in-flight clips to roughly five.  Stated for every submission that is not
the last one (the final wait at line 63 follows the last submission
regardless). -/
theorem c3_barrier_schedule (fs : Fs) (src : CatalogSource)
    (h1 : src.openErr = none)
    (hp : prepOkFor fs (filterNonRecoubs src.decoded)) :
    ∀ i, i + 1 < (filterNonRecoubs src.decoded).length →
      followsSubmit i (ReadCoub fs src).1 = (i % 5 == 0) := by
  intro i hi
  rw [ReadCoub_ok fs src h1 hp]
  exact followsSubmit_loopTrace fs _ 0 [Event.barrierEv] i (Nat.zero_le i) (by omega)

/-- Witness for the amended C3 on the six-clip catalog: a barrier follows
submission 0 and none follows submission 4. -/
theorem c3_amended_witness :
    followsSubmit 0 (ReadCoub fsHappy srcSix).1 = (0 % 5 == 0) ∧
    followsSubmit 4 (ReadCoub fsHappy srcSix).1 = (4 % 5 == 0) :=
  ⟨c3_barrier_schedule fsHappy srcSix rfl (by decide) 0 (by decide),
   c3_barrier_schedule fsHappy srcSix rfl (by decide) 4 (by decide)⟩

/-- C4 (counterexample): for a clip whose title carries surrounding white
space, the record handed to the download pool is the untrimmed catalog
record, and the renamed share download of that record is written to the
file named from the untrimmed title, not the trimmed one. -/
theorem c4_counterexample :
    Event.submitEv 0 "root/x" (mkCoub " x ") ∈ (ReadCoub fsHappy srcSpacedTitle).1 ∧
    (DownloadFileVersions fetchNone "root/x" (mkCoub " x ")).1.getLast? =
      some ("root/x/ x .mp4", "http://s/d.mp4") ∧
    ("root/x/ x .mp4" : String) ≠ "root/x/x.mp4" :=
  ⟨by decide, by decide, by decide⟩

/-- C4 (amended): the trimmed title governs directory and metadata
creation, but the download goroutine receives the original catalog record
(coubs at coubID, line 51), so the renamed share rendition of every
submitted clip is written to the file named from the untrimmed title; the
directory-creation event of the same clip uses the trimmed record.  The
two coincide exactly when the title has no surrounding white space. -/
theorem c4_title_dataflow (fs : Fs) (src : CatalogSource)
    (fetch : String → String → Option Err)
    (h1 : src.openErr = none)
    (hp : prepOkFor fs (filterNonRecoubs src.decoded)) :
    ∀ i d c, Event.submitEv i d c ∈ (ReadCoub fs src).1 →
      c ∈ filterNonRecoubs src.decoded ∧
      d = fs.createCoubDirRes (trimTitle c) ∧
      Event.createDirEv (fs.createCoubDirRes (trimTitle c)) (trimTitle c) ∈
        (ReadCoub fs src).1 ∧
      (DownloadFileVersions fetch d c).1.getLast? =
        some (d ++ "/" ++ c.title ++ ".mp4", c.fileVersions.share.default) := by
  intro i d c hmem
  rw [ReadCoub_ok fs src h1 hp] at hmem ⊢
  have hmem' : Event.submitEv i d c ∈ loopTrace fs 0 (filterNonRecoubs src.decoded) := by
    rcases List.mem_append.mp hmem with h | h
    · exact h
    · simp at h
  obtain ⟨hc, hd, hdir⟩ := submitEv_loopTrace fs _ 0 i d c hmem'
  refine ⟨hc, hd, List.mem_append_left _ hdir, ?_⟩
  simp [DownloadFileVersions]

/-- Witness for the amended C4 at the spaced-title catalog. -/
theorem c4_amended_witness :
    mkCoub " x " ∈ filterNonRecoubs srcSpacedTitle.decoded ∧
    ("root/x" : String) = fsHappy.createCoubDirRes (trimTitle (mkCoub " x ")) ∧
    Event.createDirEv (fsHappy.createCoubDirRes (trimTitle (mkCoub " x ")))
        (trimTitle (mkCoub " x ")) ∈ (ReadCoub fsHappy srcSpacedTitle).1 ∧
    (DownloadFileVersions fetchNone "root/x" (mkCoub " x ")).1.getLast? =
      some ("root/x" ++ "/" ++ (mkCoub " x ").title ++ ".mp4",
        (mkCoub " x ").fileVersions.share.default) :=
  c4_title_dataflow fsHappy srcSpacedTitle fetchNone rfl (by decide)
    0 "root/x" (mkCoub " x ") (by decide)
